import Mathlib

/-!
Verification development for the analytics-camara ingestion pipeline.

The relational schema is transcribed from `app/database/DDL.sql`; the
notebook transformations from `notebooks/transform.ipynb`; the container
entrypoint from `docker-entrypoint.sh`.  Components of the pipeline whose
implementation is not part of the sources at hand (the loader and the
watermark store under `app/ingestion/`) are modelled from the
specification and marked as such in their doc comments.
-/

namespace Camara

/-- A SQL value as stored in a cell.  JSONB payloads are kept opaque as
strings; dates and timestamps are likewise carried as their textual form,
which is enough for the structural constraints of the DDL. -/
inductive Value where
  | vnull : Value
  | vint : Int → Value
  | vstr : String → Value
  | vbool : Bool → Value
  | vdec : Rat → Value
deriving DecidableEq

/-- A row is a finite assignment of column names to values; a column that
is absent from the list is NULL. -/
abbrev Row := List (String × Value)

/-- SQL column types appearing in PostgreSQL DDL.  `real` and
`doublePrecision` are the floating-point types; the DDL of this project
never uses them. -/
inductive SqlType where
  | integer : SqlType
  | serial : SqlType
  | varchar : SqlType
  | date : SqlType
  | timestamp : SqlType
  | numeric : SqlType
  | jsonb : SqlType
  | boolean : SqlType
  | text : SqlType
  | real : SqlType
  | doublePrecision : SqlType
deriving DecidableEq

/-- One column declaration of a CREATE TABLE statement. -/
structure Column where
  name : String
  ty : SqlType
  notNull : Bool
  primaryKey : Bool
  references : Option (String × String)
deriving DecidableEq

/-- Column declared NOT NULL. -/
def colN (n : String) (t : SqlType) : Column := ⟨n, t, true, false, none⟩

/-- Column with no constraint (nullable). -/
def colO (n : String) (t : SqlType) : Column := ⟨n, t, false, false, none⟩

/-- Column declared PRIMARY KEY. -/
def colPK (n : String) (t : SqlType) : Column := ⟨n, t, true, true, none⟩

/-- Column declared NOT NULL REFERENCES parentTable(parentColumn). -/
def colFK (n : String) (t : SqlType) (pt pc : String) : Column :=
  ⟨n, t, true, false, some (pt, pc)⟩

/-- One CREATE TABLE statement: its name, columns, and any table-level
UNIQUE constraints (the DDL of this project declares none). -/
structure Table where
  name : String
  columns : List Column
  uniques : List (List String)
deriving DecidableEq

/-- `CREATE TABLE deputados` from DDL.sql. -/
def deputadosTable : Table :=
  { name := "deputados"
    columns :=
      [ colPK "id" SqlType.integer
      , colN "uri" SqlType.varchar
      , colN "nome_civil" SqlType.varchar
      , colO "cpf" SqlType.varchar
      , colO "sexo" SqlType.varchar
      , colO "url_website" SqlType.varchar
      , colO "data_nascimento" SqlType.date
      , colO "data_falecimento" SqlType.date
      , colO "uf_nascimento" SqlType.varchar
      , colO "municipio_nascimento" SqlType.varchar
      , colO "escolaridade" SqlType.varchar
      , colO "ultimo_status_id" SqlType.integer
      , colO "ultimo_status_nome" SqlType.varchar
      , colO "ultimo_status_sigla_partido" SqlType.varchar
      , colO "ultimo_status_uri_partido" SqlType.varchar
      , colO "ultimo_status_sigla_uf" SqlType.varchar
      , colO "ultimo_status_id_legislatura" SqlType.integer
      , colO "ultimo_status_url_foto" SqlType.varchar
      , colO "ultimo_status_email" SqlType.varchar
      , colO "ultimo_status_data" SqlType.date
      , colO "ultimo_status_nome_eleitoral" SqlType.varchar
      , colO "ultimo_status_gabinete" SqlType.jsonb
      , colO "ultimo_status_situacao" SqlType.varchar
      , colO "ultimo_status_condicao_eleitoral" SqlType.varchar
      , colO "ultimo_status_descricao" SqlType.varchar ]
    uniques := [] }

/-- `CREATE TABLE despesas` from DDL.sql. -/
def despesasTable : Table :=
  { name := "despesas"
    columns :=
      [ colPK "id" SqlType.serial
      , colFK "deputado_id" SqlType.integer "deputados" "id"
      , colN "ano" SqlType.integer
      , colN "mes" SqlType.integer
      , colN "tipo_despesa" SqlType.varchar
      , colN "cod_documento" SqlType.integer
      , colN "tipo_documento" SqlType.varchar
      , colN "cod_tipo_documento" SqlType.integer
      , colN "data_documento" SqlType.date
      , colN "num_documento" SqlType.varchar
      , colN "valor_documento" SqlType.numeric
      , colN "url_documento" SqlType.varchar
      , colN "nome_fornecedor" SqlType.varchar
      , colN "cnpj_cpf_fornecedor" SqlType.varchar
      , colN "valor_liquido" SqlType.numeric
      , colN "valor_glosa" SqlType.numeric
      , colO "num_ressarcimento" SqlType.varchar
      , colO "cod_lote" SqlType.integer
      , colO "parcela" SqlType.integer ]
    uniques := [] }

/-- `CREATE TABLE discursos` from DDL.sql. -/
def discursosTable : Table :=
  { name := "discursos"
    columns :=
      [ colPK "id" SqlType.serial
      , colFK "deputado_id" SqlType.integer "deputados" "id"
      , colN "data_hora_inicio" SqlType.timestamp
      , colO "data_hora_fim" SqlType.timestamp
      , colO "fase_evento" SqlType.jsonb
      , colN "tipo_discurso" SqlType.varchar
      , colO "url_texto" SqlType.varchar
      , colO "url_audio" SqlType.varchar
      , colO "url_video" SqlType.varchar
      , colO "keywords" SqlType.varchar
      , colO "sumario" SqlType.text
      , colO "transcricao" SqlType.text ]
    uniques := [] }

/-- `CREATE TABLE votacoes` from DDL.sql. -/
def votacoesTable : Table :=
  { name := "votacoes"
    columns :=
      [ colPK "id" SqlType.varchar
      , colN "uri" SqlType.varchar
      , colN "data" SqlType.date
      , colN "data_hora_registro" SqlType.timestamp
      , colN "sigla_orgao" SqlType.varchar
      , colN "uri_orgao" SqlType.varchar
      , colO "proposicao_objeto" SqlType.jsonb
      , colN "tipo_votacao" SqlType.jsonb
      , colO "ultima_apresentacao_proposicao" SqlType.jsonb
      , colN "aprovacao" SqlType.boolean ]
    uniques := [] }

/-- `CREATE TABLE votos` from DDL.sql. -/
def votosTable : Table :=
  { name := "votos"
    columns :=
      [ colPK "id" SqlType.serial
      , colFK "votacao_id" SqlType.varchar "votacoes" "id"
      , colFK "deputado_id" SqlType.integer "deputados" "id"
      , colN "data_registro_voto" SqlType.timestamp
      , colN "tipo_voto" SqlType.varchar ]
    uniques := [] }

/-- All CREATE TABLE statements of DDL.sql, in order. -/
def ddlTables : List Table :=
  [deputadosTable, despesasTable, discursosTable, votacoesTable, votosTable]

/-- One CREATE INDEX statement. -/
structure SqlIndex where
  name : String
  table : String
  columns : List String
  unique : Bool
deriving DecidableEq

/-- The four CREATE INDEX statements of DDL.sql; none of them is a UNIQUE
index. -/
def ddlIndexes : List SqlIndex :=
  [ ⟨"idx_despesas_deputado_id", "despesas", ["deputado_id"], false⟩
  , ⟨"idx_discursos_deputado_id", "discursos", ["deputado_id"], false⟩
  , ⟨"idx_votos_deputado_id", "votos", ["deputado_id"], false⟩
  , ⟨"idx_votos_votacao_id", "votos", ["votacao_id"], false⟩ ]

/-- A database instance: for each table name, its list of rows. -/
structure Inst where
  tables : List (String × List Row)
deriving DecidableEq

/-- Rows of a named table in an instance (empty when the table is not
listed). -/
def instRows (db : Inst) (n : String) : List Row :=
  (db.tables.lookup n).getD []

/-- The named cell of a row is present and not NULL. -/
def presentNonNull (r : Row) (cname : String) : Bool :=
  match r.lookup cname with
  | some v => decide (v ≠ Value.vnull)
  | none => false

/-- The row satisfies every NOT NULL / PRIMARY KEY presence constraint of
the table. -/
def notNullOK (t : Table) (r : Row) : Bool :=
  t.columns.all fun c =>
    if c.notNull || c.primaryKey then presentNonNull r c.name else true

/-- The row satisfies one column REFERENCES constraint against the
instance (SQL semantics: a NULL foreign key is not checked). -/
def fkColOK (db : Inst) (r : Row) (c : Column) : Bool :=
  match c.references with
  | none => true
  | some (pt, pc) =>
    match r.lookup c.name with
    | none => true
    | some v =>
      decide (v = Value.vnull) ||
        (instRows db pt).any fun pr => decide (pr.lookup pc = some v)

/-- The row satisfies every REFERENCES constraint of the table. -/
def fkOK (db : Inst) (t : Table) (r : Row) : Bool :=
  t.columns.all fun c => fkColOK db r c

/-- Names of the primary-key columns of a table. -/
def pkCols (t : Table) : List String :=
  (t.columns.filter fun c => c.primaryKey).map fun c => c.name

/-- Values a row takes on the primary-key columns. -/
def pkVals (t : Table) (r : Row) : List (Option Value) :=
  (pkCols t).map fun n => r.lookup n

/-- Boolean pairwise test on a list. -/
def pairwiseB (f : α → α → Bool) : List α → Bool
  | [] => true
  | x :: xs => (xs.all fun y => f x y) && pairwiseB f xs

/-- All constraints the DDL declares on one table, checked over an
instance: NOT NULL presence, foreign keys, and primary-key uniqueness. -/
def tableOK (db : Inst) (t : Table) : Bool :=
  let rs := instRows db t.name
  (rs.all fun r => notNullOK t r) &&
    ((rs.all fun r => fkOK db t r) &&
      pairwiseB (fun a b => decide (pkVals t a ≠ pkVals t b)) rs)

/-- The instance satisfies every constraint declared by DDL.sql. -/
def dbOK (db : Inst) : Bool :=
  tableOK db deputadosTable &&
    (tableOK db despesasTable &&
      (tableOK db discursosTable &&
        (tableOK db votacoesTable && tableOK db votosTable)))

/-- Splitting a satisfied table check into its three constraint families. -/
theorem tableOK_parts {db : Inst} {t : Table} (h : tableOK db t = true) :
    ((instRows db t.name).all fun r => notNullOK t r) = true ∧
      ((instRows db t.name).all fun r => fkOK db t r) = true ∧
        pairwiseB (fun a b => decide (pkVals t a ≠ pkVals t b))
          (instRows db t.name) = true := by
  unfold tableOK at h
  simp only [Bool.and_eq_true] at h
  exact ⟨h.1, h.2.1, h.2.2⟩

/-- A satisfied NOT NULL check yields a present, non-NULL cell for every
NOT NULL or PRIMARY KEY column. -/
theorem notnull_sound {t : Table} {c : Column} (hc : c ∈ t.columns)
    (hnn : (c.notNull || c.primaryKey) = true) {r : Row}
    (h : notNullOK t r = true) :
    ∃ v, r.lookup c.name = some v ∧ v ≠ Value.vnull := by
  unfold notNullOK at h
  have h2 := List.all_eq_true.mp h c hc
  rw [if_pos hnn] at h2
  unfold presentNonNull at h2
  cases hl : r.lookup c.name with
  | none => rw [hl] at h2; cases h2
  | some v =>
    rw [hl] at h2
    exact ⟨v, rfl, of_decide_eq_true h2⟩

/-- A satisfied foreign-key check yields a parent row for every non-NULL
value of a REFERENCES column. -/
theorem fk_sound {db : Inst} {t : Table} {c : Column} (hc : c ∈ t.columns)
    {pt pc : String} (href : c.references = some (pt, pc)) {r : Row}
    (h : fkOK db t r = true) {v : Value} (hv : r.lookup c.name = some v)
    (hnv : v ≠ Value.vnull) :
    ∃ pr ∈ instRows db pt, pr.lookup pc = some v := by
  unfold fkOK at h
  have h2 := List.all_eq_true.mp h c hc
  unfold fkColOK at h2
  rw [href] at h2
  simp only [hv] at h2
  have hne : decide (v = Value.vnull) = false := decide_eq_false hnv
  rw [hne, Bool.false_or] at h2
  obtain ⟨pr, hpr, hbeq⟩ := List.any_eq_true.mp h2
  exact ⟨pr, hpr, of_decide_eq_true hbeq⟩

/-- A satisfied pairwise-distinct check separates any two rows that agree
on the tested projection. -/
theorem pairwiseB_pk_sound {t : Table} {l : List Row}
    (h : pairwiseB (fun a b => decide (pkVals t a ≠ pkVals t b)) l = true) :
    ∀ a ∈ l, ∀ b ∈ l, pkVals t a = pkVals t b → a = b := by
  induction l with
  | nil => intro a ha; exact absurd ha (List.not_mem_nil a)
  | cons x xs ih =>
    simp only [pairwiseB, Bool.and_eq_true] at h
    obtain ⟨hall, htail⟩ := h
    intro a ha b hb heq
    rcases List.mem_cons.mp ha with rfl | ha' <;>
      rcases List.mem_cons.mp hb with rfl | hb'
    · rfl
    · exact absurd heq (of_decide_eq_true (List.all_eq_true.mp hall b hb'))
    · exact absurd heq.symm
        (of_decide_eq_true (List.all_eq_true.mp hall a ha'))
    · exact ih htail a ha' b hb' heq

/-- Extracting each table check from a satisfied instance check. -/
theorem dbOK_parts {db : Inst} (h : dbOK db = true) :
    tableOK db deputadosTable = true ∧
      tableOK db despesasTable = true ∧
        tableOK db discursosTable = true ∧
          tableOK db votacoesTable = true ∧ tableOK db votosTable = true := by
  unfold dbOK at h
  simp only [Bool.and_eq_true] at h
  exact ⟨h.1, h.2.1, h.2.2.1, h.2.2.2.1, h.2.2.2.2⟩

section Upsert

variable {α K : Type} [DecidableEq K]

/-- Modelled from the spec: the Loader (app/ingestion/load.py, not among
the sources at hand) performs an insert-if-absent, update-if-present
upsert keyed by natural key (spec 4.4).  One upsert of a record into a
table state: if a row with the same key exists, every such row is
replaced by the record, else the record is appended. -/
def upsertRow (key : α → K) (r : α) (t : List α) : List α :=
  if t.any fun r0 => decide (key r0 = key r) then
    t.map fun r0 => if key r0 = key r then r else r0
  else t ++ [r]

/-- Modelled from the spec: applying a batch of records left to right,
one upsert per record (spec 4.4, one transaction per batch). -/
def upsertBatch (key : α → K) (b : List α) (t : List α) : List α :=
  b.foldl (fun acc r => upsertRow key r acc) t

/-- Some row of `t` carries key `k`. -/
def keyPresent (key : α → K) (k : K) (t : List α) : Prop :=
  ∃ r0 ∈ t, key r0 = k

/-- Every row of `t` carrying the key of `r` is `r` itself. -/
def allKeyEq (key : α → K) (r : α) (t : List α) : Prop :=
  ∀ r0 ∈ t, key r0 = key r → r0 = r

theorem map_id_on {f : α → α} {l : List α} (h : ∀ x ∈ l, f x = x) :
    l.map f = l := by
  induction l with
  | nil => rfl
  | cons x xs ih =>
    simp only [List.map_cons, h x (List.mem_cons_self x xs)]
    rw [ih fun y hy => h y (List.mem_cons_of_mem x hy)]

theorem upsertRow_of_present_allKeyEq {key : α → K} {r : α} {t : List α}
    (hp : keyPresent key (key r) t) (ha : allKeyEq key r t) :
    upsertRow key r t = t := by
  obtain ⟨r0, hr0, hk⟩ := hp
  have hc : (t.any fun r1 => decide (key r1 = key r)) = true :=
    List.any_eq_true.mpr ⟨r0, hr0, decide_eq_true hk⟩
  unfold upsertRow
  rw [if_pos hc]
  refine map_id_on fun x hx => ?_
  by_cases h : key x = key r
  · rw [if_pos h, ha x hx h]
  · rw [if_neg h]

theorem allKeyEq_upsertRow_self {key : α → K} (r : α) (t : List α) :
    allKeyEq key r (upsertRow key r t) := by
  intro y hy hky
  unfold upsertRow at hy
  split at hy
  · obtain ⟨x, hx, hfx⟩ := List.mem_map.mp hy
    by_cases h : key x = key r
    · rw [if_pos h] at hfx; exact hfx.symm
    · rw [if_neg h] at hfx; rw [← hfx] at hky; exact absurd hky h
  · rcases List.mem_append.mp hy with hy' | hy'
    · next hc =>
      exfalso
      exact hc (List.any_eq_true.mpr ⟨y, hy', decide_eq_true hky⟩)
    · simpa using hy'

theorem keyPresent_upsertRow_self {key : α → K} (r : α) (t : List α) :
    keyPresent key (key r) (upsertRow key r t) := by
  unfold upsertRow
  split
  · next hc =>
    obtain ⟨x, hx, hk⟩ := List.any_eq_true.mp hc
    refine ⟨_, List.mem_map_of_mem _ hx, ?_⟩
    rw [if_pos (of_decide_eq_true hk)]
  · exact ⟨r, List.mem_append.mpr (Or.inr (List.mem_singleton.mpr rfl)), rfl⟩

theorem allKeyEq_upsertRow_other {key : α → K} {r r' : α} {t : List α}
    (hne : key r' ≠ key r) (ha : allKeyEq key r t) :
    allKeyEq key r (upsertRow key r' t) := by
  intro y hy hky
  unfold upsertRow at hy
  split at hy
  · obtain ⟨x, hx, hfx⟩ := List.mem_map.mp hy
    by_cases h : key x = key r'
    · rw [if_pos h] at hfx
      rw [← hfx] at hky
      exact absurd hky hne
    · rw [if_neg h] at hfx
      rw [← hfx] at hky ⊢
      exact ha x hx hky
  · rcases List.mem_append.mp hy with hy' | hy'
    · exact ha y hy' hky
    · have : y = r' := by simpa using hy'
      rw [this] at hky
      exact absurd hky hne

theorem keyPresent_upsertRow_other {key : α → K} {r r' : α} {t : List α}
    (hne : key r' ≠ key r) (hp : keyPresent key (key r) t) :
    keyPresent key (key r) (upsertRow key r' t) := by
  obtain ⟨x, hx, hk⟩ := hp
  unfold upsertRow
  split
  · refine ⟨_, List.mem_map_of_mem _ hx, ?_⟩
    rw [if_neg fun h => hne (by rw [← h]; exact hk)]
    exact hk
  · exact ⟨x, List.mem_append.mpr (Or.inl hx), hk⟩

theorem allKeyEq_upsertBatch {key : α → K} {r : α} {b : List α}
    (hnotin : key r ∉ b.map key) :
    ∀ {t : List α}, allKeyEq key r t → allKeyEq key r (upsertBatch key b t) := by
  induction b with
  | nil => intro t ha; exact ha
  | cons r' b ih =>
    intro t ha
    have hne : key r' ≠ key r := by
      intro h
      apply hnotin
      rw [← h]
      exact List.mem_map_of_mem key (List.mem_cons_self r' b)
    have hnotin' : key r ∉ b.map key := fun h =>
      hnotin (by simp only [List.map_cons, List.mem_cons]; exact Or.inr h)
    exact ih hnotin' (allKeyEq_upsertRow_other hne ha)

theorem keyPresent_upsertBatch {key : α → K} {r : α} {b : List α}
    (hnotin : key r ∉ b.map key) :
    ∀ {t : List α}, keyPresent key (key r) t →
      keyPresent key (key r) (upsertBatch key b t) := by
  induction b with
  | nil => intro t hp; exact hp
  | cons r' b ih =>
    intro t hp
    have hne : key r' ≠ key r := by
      intro h
      apply hnotin
      rw [← h]
      exact List.mem_map_of_mem key (List.mem_cons_self r' b)
    have hnotin' : key r ∉ b.map key := fun h =>
      hnotin (by simp only [List.map_cons, List.mem_cons]; exact Or.inr h)
    exact ih hnotin' (keyPresent_upsertRow_other hne hp)

/-- Applying the same batch of records a second time changes nothing,
provided the records of the batch carry pairwise distinct keys. -/
theorem upsertBatch_idem (key : α → K) {b : List α} (t : List α)
    (hnd : (b.map key).Nodup) :
    upsertBatch key b (upsertBatch key b t) = upsertBatch key b t := by
  induction b generalizing t with
  | nil => rfl
  | cons r b ih =>
    rw [List.map_cons, List.nodup_cons] at hnd
    obtain ⟨hnotin, hnd'⟩ := hnd
    show upsertBatch key b
        (upsertRow key r (upsertBatch key b (upsertRow key r t))) =
      upsertBatch key b (upsertRow key r t)
    have ha : allKeyEq key r (upsertBatch key b (upsertRow key r t)) :=
      allKeyEq_upsertBatch hnotin (allKeyEq_upsertRow_self r t)
    have hp : keyPresent key (key r) (upsertBatch key b (upsertRow key r t)) :=
      keyPresent_upsertBatch hnotin (keyPresent_upsertRow_self r t)
    rw [upsertRow_of_present_allKeyEq hp ha]
    exact ih (upsertRow key r t) hnd'

end Upsert

/-- Natural key of an expense row per the spec data model: (deputy id,
document code, year, month). -/
def despesaNaturalKey (r : Row) :
    Option Value × Option Value × Option Value × Option Value :=
  (r.lookup "deputado_id", r.lookup "cod_documento",
    r.lookup "ano", r.lookup "mes")

/-- Natural key of a speech row per the spec data model: (deputy id,
start timestamp). -/
def discursoNaturalKey (r : Row) : Option Value × Option Value :=
  (r.lookup "deputado_id", r.lookup "data_hora_inicio")

/-- Natural key of a vote row per the spec data model: (voting session
id, deputy id). -/
def votoNaturalKey (r : Row) : Option Value × Option Value :=
  (r.lookup "votacao_id", r.lookup "deputado_id")

/-- One raw vote record as read from votos.parquet, restricted to the
four columns cell 4 of notebooks/transform.ipynb selects.  The nested
record of the voting deputy is a JSON dictionary, `none` when missing. -/
structure RawVoto where
  idVotacao : Value
  tipoVoto : Value
  dataRegistroVoto : Value
  deputado_ : Option (List (String × Value))
deriving DecidableEq

/-- One row of the votos_clean frame: the selected columns, the retained
nested deputy dictionary, and the extracted deputadoId column. -/
structure CleanVoto where
  idVotacao : Value
  tipoVoto : Value
  dataRegistroVoto : Value
  deputado_ : Option (List (String × Value))
  deputadoId : Value
deriving DecidableEq

/-- Models the function cell 4 maps over the deputado_ column, which
subscripts the dictionary with the key id: subscripting a missing
dictionary raises TypeError and a dictionary without the key raises
KeyError; either exception aborts the cell. -/
def subscriptId : Option (List (String × Value)) → Except String Value
  | none => Except.error "TypeError: NoneType object is not subscriptable"
  | some d =>
    match d.lookup "id" with
    | some v => Except.ok v
    | none => Except.error "KeyError: id"

/-- Cell 4 of notebooks/transform.ipynb: select the four columns and
derive deputadoId by subscripting each nested deputy dictionary; the
first failing record aborts the whole frame. -/
def votosClean : List RawVoto → Except String (List CleanVoto)
  | [] => Except.ok []
  | r :: rest =>
    match subscriptId r.deputado_ with
    | Except.error e => Except.error e
    | Except.ok v =>
      match votosClean rest with
      | Except.error e => Except.error e
      | Except.ok out =>
        Except.ok
          ({ idVotacao := r.idVotacao, tipoVoto := r.tipoVoto,
             dataRegistroVoto := r.dataRegistroVoto,
             deputado_ := r.deputado_, deputadoId := v } :: out)

/-- The nested deputy dictionary of the record is present and carries the
key id, so the subscript of cell 4 succeeds on it. -/
def subscriptOkB (r : RawVoto) : Bool :=
  (r.deputado_.bind fun d => d.lookup "id").isSome

/-- The clean row cell 4 produces for a record whose subscript
succeeds. -/
def cleanVotoTotal (r : RawVoto) : CleanVoto :=
  { idVotacao := r.idVotacao, tipoVoto := r.tipoVoto,
    dataRegistroVoto := r.dataRegistroVoto, deputado_ := r.deputado_,
    deputadoId := (r.deputado_.bind fun d => d.lookup "id").getD Value.vnull }

/-- One raw deputy detail record as read from detalhes_deputados.parquet,
restricted to the columns cell 5 of notebooks/transform.ipynb selects.
The nested ultimoStatus object is carried in the flat form produced by
pd.json_normalize, where a nested path such as gabinete.telefone appears
as a dotted key; a record with no status object yields `none`. -/
structure RawDetalheDeputado where
  id : Value
  nomeCivil : Value
  ultimoStatus : Option (List (String × Value))
  dataNascimento : Value
  municipioNascimento : Value
  ufNascimento : Value
  escolaridade : Value
  sexo : Value
deriving DecidableEq

/-- One row of the detalhes_deputados_clean frame: the selected columns,
the retained nested ultimoStatus object, and the five assigned status
columns. -/
structure CleanDetalheDeputado where
  id : Value
  nomeCivil : Value
  ultimoStatus : Option (List (String × Value))
  dataNascimento : Value
  municipioNascimento : Value
  ufNascimento : Value
  escolaridade : Value
  sexo : Value
  condicaoEleitoral : Value
  situacao : Value
  dataUltimoStatus : Value
  telefone : Value
  siglaPartido : Value
deriving DecidableEq

/-- Value of one json_normalize column at one record: NaN (modelled as
vnull) when the record lacks the key or has no status object. -/
def statusField (r : RawDetalheDeputado) (k : String) : Value :=
  ((r.ultimoStatus.getD []).lookup k).getD Value.vnull

/-- The json_normalize frame has a column only when some record carries
the key; selecting a column absent from every record raises KeyError. -/
def statusColExists (rows : List RawDetalheDeputado) (k : String) : Bool :=
  rows.any fun r => ((r.ultimoStatus.getD []).lookup k).isSome

/-- The clean row cell 5 produces for one record: every selected raw
column is kept, ultimoStatus included, and the five status columns are
assigned from the normalized frame with their renames (data becomes
dataUltimoStatus, gabinete.telefone becomes telefone). -/
def cleanDetalheRow (r : RawDetalheDeputado) : CleanDetalheDeputado :=
  { id := r.id, nomeCivil := r.nomeCivil, ultimoStatus := r.ultimoStatus,
    dataNascimento := r.dataNascimento,
    municipioNascimento := r.municipioNascimento,
    ufNascimento := r.ufNascimento, escolaridade := r.escolaridade,
    sexo := r.sexo,
    condicaoEleitoral := statusField r "condicaoEleitoral",
    situacao := statusField r "situacao",
    dataUltimoStatus := statusField r "data",
    telefone := statusField r "gabinete.telefone",
    siglaPartido := statusField r "siglaPartido" }

/-- Cell 5 of notebooks/transform.ipynb: normalize the ultimoStatus
column and assign five of its columns onto the selected frame; accessing
a normalized column that exists for no record raises KeyError. -/
def detalhesDeputadosClean (rows : List RawDetalheDeputado) :
    Except String (List CleanDetalheDeputado) :=
  if statusColExists rows "condicaoEleitoral" &&
      (statusColExists rows "situacao" &&
        (statusColExists rows "data" &&
          (statusColExists rows "gabinete.telefone" &&
            statusColExists rows "siglaPartido"))) then
    Except.ok (rows.map cleanDetalheRow)
  else Except.error "KeyError"

/-- Default connection string hard-coded in docker-entrypoint.sh. -/
def defaultDatabaseUrl : String :=
  "postgresql://postgres:postgres@db:5432/camara_analytics"

/-- The DATABASE_URL step of docker-entrypoint.sh: the shell test -z is
true when the variable is unset or expands to the empty string, in which
case the default is exported; otherwise the variable is untouched. -/
def entrypointEnvAfterDefault (databaseUrl : Option String) : Option String :=
  if databaseUrl.getD "" = "" then some defaultDatabaseUrl else databaseUrl

/-- Outcome of one entrypoint invocation: the DATABASE_URL in effect when
the dispatched commands run, and those commands. -/
structure EntrypointResult where
  databaseUrl : Option String
  commands : List String
deriving DecidableEq

/-- docker-entrypoint.sh (scheduler variant; the cron variant applies the
same DATABASE_URL step): data directories are created, the DATABASE_URL
default is applied, and only then is the first argument dispatched, so
every python command runs with the defaulted environment. -/
def dockerEntrypoint (databaseUrl : Option String) (args : List String) :
    EntrypointResult :=
  let env := entrypointEnvAfterDefault databaseUrl
  let cmds :=
    match args with
    | "init-db" :: _ =>
      ["python -m app.database.create_tables",
       "python -m app.ingestion.cron_etl --mode full --entity all"]
    | "etl" :: rest =>
      [String.intercalate " " ("python -m app.ingestion.cron_etl" :: rest)]
    | _ => ["python -m app.scheduler"]
  { databaseUrl := env, commands := cmds }

/-- Modelled from the spec: the Watermark Store (spec 4.5), whose
implementation under app/ingestion is not among the sources at hand.  One
entry per entity (a sub-partition, when present, is encoded in the key)
mapping to the last successfully processed cursor. -/
structure WatermarkStore where
  entries : List (String × Nat)
deriving DecidableEq

/-- First value stored under a key in an association list. -/
def wmLookup (e : String) : List (String × Nat) → Option Nat
  | [] => none
  | (k, v) :: l => if k = e then some v else wmLookup e l

/-- Modelled from the spec: get(entity), the never-run sentinel being
`none`. -/
def WatermarkStore.get (s : WatermarkStore) (e : String) : Option Nat :=
  wmLookup e s.entries

/-- Modelled from the spec: advance(entity, newCursor); a newCursor below
the stored value is ignored (spec 4.5). -/
def WatermarkStore.advance (s : WatermarkStore) (e : String) (c : Nat) :
    WatermarkStore :=
  match wmLookup e s.entries with
  | none => ⟨(e, c) :: s.entries⟩
  | some p =>
    if p ≤ c then
      ⟨s.entries.map fun kv => if kv.1 = e then (e, c) else kv⟩
    else s

/-- Modelled from the spec: the Orchestrator advances the watermark for a
batch only once the batch has committed (spec 4.2, 4.4). -/
def processBatch (s : WatermarkStore) (e : String) (c : Nat)
    (committed : Bool) : WatermarkStore :=
  if committed then s.advance e c else s

/-- Updating every entry of a key rewrites what lookup finds under it. -/
theorem wmLookup_map_update {e : String} {c : Nat} :
    ∀ {l : List (String × Nat)} {p : Nat}, wmLookup e l = some p →
      wmLookup e (l.map fun kv => if kv.1 = e then (e, c) else kv) = some c := by
  intro l
  induction l with
  | nil => intro p h; cases h
  | cons kv l ih =>
    intro p h
    obtain ⟨k, v⟩ := kv
    by_cases hk : k = e
    · subst hk
      rw [List.map_cons, if_pos rfl]
      simp only [wmLookup, eq_self_iff_true]
      exact if_pos trivial
    · simp only [wmLookup] at h
      rw [if_neg hk] at h
      rw [List.map_cons, if_neg hk]
      simp only [wmLookup]
      rw [if_neg hk]
      exact ih h

/-- A sample deputados row satisfying every constraint of the table. -/
def sampleDeputadoRow : Row :=
  [("id", Value.vint 204379),
   ("uri", Value.vstr "https://dadosabertos.camara.leg.br/api/v2/deputados/204379"),
   ("nome_civil", Value.vstr "Fulano de Tal")]

/-- A sample votacoes row satisfying every constraint of the table. -/
def sampleVotacaoRow : Row :=
  [("id", Value.vstr "2265603-43"),
   ("uri", Value.vstr "https://dadosabertos.camara.leg.br/api/v2/votacoes/2265603-43"),
   ("data", Value.vstr "2024-01-10"),
   ("data_hora_registro", Value.vstr "2024-01-10T12:00:00"),
   ("sigla_orgao", Value.vstr "PLEN"),
   ("uri_orgao", Value.vstr "https://dadosabertos.camara.leg.br/api/v2/orgaos/180"),
   ("tipo_votacao", Value.vstr "JSON payload"),
   ("aprovacao", Value.vbool true)]

/-- A sample despesas row satisfying every constraint of the table. -/
def sampleDespesaRow : Row :=
  [("id", Value.vint 1),
   ("deputado_id", Value.vint 204379),
   ("ano", Value.vint 2024), ("mes", Value.vint 1),
   ("tipo_despesa", Value.vstr "COMBUSTIVEIS E LUBRIFICANTES"),
   ("cod_documento", Value.vint 7654321),
   ("tipo_documento", Value.vstr "Nota Fiscal"),
   ("cod_tipo_documento", Value.vint 0),
   ("data_documento", Value.vstr "2024-01-05"),
   ("num_documento", Value.vstr "123"),
   ("valor_documento", Value.vdec 250),
   ("url_documento", Value.vstr "http://www.camara.leg.br/cota-parlamentar/documento"),
   ("nome_fornecedor", Value.vstr "Posto X"),
   ("cnpj_cpf_fornecedor", Value.vstr "00000000000191"),
   ("valor_liquido", Value.vdec 250),
   ("valor_glosa", Value.vdec 0)]

/-- A sample discursos row satisfying every constraint of the table. -/
def sampleDiscursoRow : Row :=
  [("id", Value.vint 1), ("deputado_id", Value.vint 204379),
   ("data_hora_inicio", Value.vstr "2024-01-10T14:00:00"),
   ("tipo_discurso", Value.vstr "BREVES COMUNICACOES")]

/-- A sample votos row satisfying every constraint of the table. -/
def sampleVotoRow : Row :=
  [("id", Value.vint 1), ("votacao_id", Value.vstr "2265603-43"),
   ("deputado_id", Value.vint 204379),
   ("data_registro_voto", Value.vstr "2024-01-10T12:05:00"),
   ("tipo_voto", Value.vstr "Sim")]

/-- A small instance satisfying every constraint DDL.sql declares. -/
def sampleDb : Inst :=
  ⟨[("deputados", [sampleDeputadoRow]),
    ("despesas", [sampleDespesaRow]),
    ("discursos", [sampleDiscursoRow]),
    ("votacoes", [sampleVotacaoRow]),
    ("votos", [sampleVotoRow])]⟩

/-- A second votos row agreeing with sampleVotoRow on the natural key
(votacao_id, deputado_id) while differing on the serial id and the
recorded choice. -/
def dupVotoRow : Row :=
  [("id", Value.vint 2), ("votacao_id", Value.vstr "2265603-43"),
   ("deputado_id", Value.vint 204379),
   ("data_registro_voto", Value.vstr "2024-01-10T12:06:00"),
   ("tipo_voto", Value.vstr "Nao")]

/-- An instance holding two votos rows with the same natural key. -/
def dupDb : Inst :=
  ⟨[("deputados", [sampleDeputadoRow]),
    ("votacoes", [sampleVotacaoRow]),
    ("votos", [sampleVotoRow, dupVotoRow])]⟩

/-- A votacoes row carrying every NOT NULL column except aprovacao. -/
def noAprovacaoRow : Row :=
  [("id", Value.vstr "2265603-44"),
   ("uri", Value.vstr "https://dadosabertos.camara.leg.br/api/v2/votacoes/2265603-44"),
   ("data", Value.vstr "2024-01-11"),
   ("data_hora_registro", Value.vstr "2024-01-11T12:00:00"),
   ("sigla_orgao", Value.vstr "PLEN"),
   ("uri_orgao", Value.vstr "https://dadosabertos.camara.leg.br/api/v2/orgaos/180"),
   ("tipo_votacao", Value.vstr "JSON payload")]

/-- A concrete raw vote record whose nested deputy record is absent. -/
def orphanRawVoto : RawVoto :=
  { idVotacao := Value.vstr "2265603-43", tipoVoto := Value.vstr "Sim",
    dataRegistroVoto := Value.vstr "2024-01-10T12:05:00", deputado_ := none }

/-- A concrete raw vote record whose nested deputy record carries an
id. -/
def goodRawVoto : RawVoto :=
  { idVotacao := Value.vstr "2265603-43", tipoVoto := Value.vstr "Sim",
    dataRegistroVoto := Value.vstr "2024-01-10T12:05:00",
    deputado_ := some [("id", Value.vint 204379),
                       ("nome", Value.vstr "Fulano")] }

/-- A concrete raw deputy detail record whose status object carries the
five extracted keys. -/
def sampleRawDetalhe : RawDetalheDeputado :=
  { id := Value.vint 204379, nomeCivil := Value.vstr "Fulano de Tal",
    ultimoStatus := some
      [("condicaoEleitoral", Value.vstr "Titular"),
       ("situacao", Value.vstr "Exercicio"),
       ("data", Value.vstr "2023-02-01"),
       ("gabinete.telefone", Value.vstr "3215-5000"),
       ("siglaPartido", Value.vstr "ABC")],
    dataNascimento := Value.vstr "1970-01-01",
    municipioNascimento := Value.vstr "Vitoria",
    ufNascimento := Value.vstr "ES",
    escolaridade := Value.vstr "Superior",
    sexo := Value.vstr "M" }

/-- Writing an exact decimal into a NUMERIC cell and reading it back. -/
def readMonetary : Value → Option Rat
  | Value.vdec q => some q
  | _ => none

/-- Advancing an entity that was never run records its first cursor. -/
theorem advance_get_none {s : WatermarkStore} {e : String}
    (hl : s.get e = none) (c : Nat) : (s.advance e c).get e = some c := by
  unfold WatermarkStore.get at hl ⊢
  unfold WatermarkStore.advance
  rw [hl]
  simp [wmLookup]

/-- Advancing an entity with a stored cursor keeps the larger of the two
cursors: a regression is ignored. -/
theorem advance_get_some {s : WatermarkStore} {e : String} {p : Nat}
    (hl : s.get e = some p) (c : Nat) :
    (s.advance e c).get e = some (if p ≤ c then c else p) := by
  unfold WatermarkStore.get at hl ⊢
  unfold WatermarkStore.advance
  rw [hl]
  by_cases hc : p ≤ c
  · dsimp only
    rw [if_pos hc, if_pos hc]
    exact wmLookup_map_update hl
  · dsimp only
    rw [if_neg hc, if_neg hc]
    exact hl

/-- A NOT NULL REFERENCES column of a table, in any satisfying instance,
holds a non-null value naming an existing parent row. -/
theorem table_fk_col (db : Inst) {t : Table} (ht : tableOK db t = true)
    {c : Column} (hc : c ∈ t.columns) {pt pc : String}
    (href : c.references = some (pt, pc)) (hnn : c.notNull = true) :
    ∀ r ∈ instRows db t.name, ∃ v, r.lookup c.name = some v ∧
      v ≠ Value.vnull ∧ ∃ pr ∈ instRows db pt, pr.lookup pc = some v := by
  intro r hr
  obtain ⟨hNN, hFK, _⟩ := tableOK_parts ht
  have h1 := List.all_eq_true.mp hNN r hr
  have h2 := List.all_eq_true.mp hFK r hr
  obtain ⟨v, hv, hvn⟩ :=
    notnull_sound hc (by rw [hnn]; exact Bool.true_or _) h1
  exact ⟨v, hv, hvn, fk_sound hc href h2 hv hvn⟩

/-- Claim C1: running the same full-extraction batch against the store a
second time leaves the table state identical to running it once: for
expense and vote batches whose records carry pairwise distinct natural
keys, the upsert of the batch is idempotent, so the second run creates no
duplicate rows and changes no row beyond the first run.  The loader is
modelled from the spec, its implementation not being among the sources at
hand. -/
theorem full_extraction_upsert_convergence
    (bd td : List Row) (hbd : (bd.map despesaNaturalKey).Nodup)
    (bv tv : List Row) (hbv : (bv.map votoNaturalKey).Nodup) :
    upsertBatch despesaNaturalKey bd (upsertBatch despesaNaturalKey bd td) =
        upsertBatch despesaNaturalKey bd td ∧
      upsertBatch votoNaturalKey bv (upsertBatch votoNaturalKey bv tv) =
        upsertBatch votoNaturalKey bv tv :=
  ⟨upsertBatch_idem despesaNaturalKey td hbd,
    upsertBatch_idem votoNaturalKey tv hbv⟩

/-- Witness for claim C1 at a concrete expense batch and vote batch. -/
theorem full_extraction_upsert_convergence_witness :
    upsertBatch despesaNaturalKey [sampleDespesaRow]
        (upsertBatch despesaNaturalKey [sampleDespesaRow] []) =
      upsertBatch despesaNaturalKey [sampleDespesaRow] [] ∧
    upsertBatch votoNaturalKey [sampleVotoRow]
        (upsertBatch votoNaturalKey [sampleVotoRow] []) =
      upsertBatch votoNaturalKey [sampleVotoRow] [] :=
  full_extraction_upsert_convergence [sampleDespesaRow] [] (by decide)
    [sampleVotoRow] [] (by decide)

/-- Claim C2 counterexample: the schema of DDL.sql does not enforce
uniqueness of the natural composite keys: an instance holding two
distinct votos rows with the same (votacao_id, deputado_id) natural key
satisfies every constraint the DDL declares. -/
theorem natural_key_duplicates_satisfy_ddl :
    dbOK dupDb = true ∧
      sampleVotoRow ∈ instRows dupDb "votos" ∧
        dupVotoRow ∈ instRows dupDb "votos" ∧
          votoNaturalKey sampleVotoRow = votoNaturalKey dupVotoRow ∧
            sampleVotoRow ≠ dupVotoRow :=
  ⟨by decide, by decide, by decide, by decide, by decide⟩

/-- Claim C2 amended: the store makes upserts well-defined only through
the declared primary keys: in any instance satisfying DDL.sql, two rows
of a table agreeing on its primary-key columns are the same row; the
dependent tables despesas, discursos and votos declare the serial id as
their only primary-key column, no table declares a UNIQUE constraint on a
natural composite key, and every index of DDL.sql is non-unique, so two
rows with the same natural key can coexist. -/
theorem pk_only_uniqueness (db : Inst) (h : dbOK db = true) :
    (∀ t ∈ ddlTables, ∀ r1 ∈ instRows db t.name, ∀ r2 ∈ instRows db t.name,
        pkVals t r1 = pkVals t r2 → r1 = r2) ∧
      (pkCols despesasTable = ["id"] ∧ pkCols discursosTable = ["id"] ∧
        pkCols votosTable = ["id"]) ∧
      (ddlTables.all fun t => decide (t.uniques = [])) = true ∧
        (ddlIndexes.all fun i => decide (i.unique = false)) = true := by
  obtain ⟨h1, h2, h3, h4, h5⟩ := dbOK_parts h
  refine ⟨?_, by decide, by decide, by decide⟩
  intro t ht
  have hOK : tableOK db t = true := by
    simp only [ddlTables, List.mem_cons, List.not_mem_nil, or_false] at ht
    rcases ht with rfl | rfl | rfl | rfl | rfl <;> assumption
  exact pairwiseB_pk_sound (tableOK_parts hOK).2.2

/-- Witness for the amended claim C2 at a concrete satisfying
instance. -/
theorem pk_only_uniqueness_witness :
    pkCols despesasTable = ["id"] ∧ pkCols discursosTable = ["id"] ∧
      pkCols votosTable = ["id"] :=
  (pk_only_uniqueness sampleDb (by decide)).2.1

/-- Claim C3: the watermark store keeps a cursor entry per entity, and
advance(entity, c) never lowers the stored cursor: after any advance the
entity has a stored cursor at least the previous value, an attempted
regression being ignored; a batch that does not commit leaves the store
untouched.  Modelled from the spec, the store implementation not being
among the sources at hand. -/
theorem watermark_advance_monotone (s : WatermarkStore) (e : String)
    (c : Nat) :
    (s.get e).getD 0 ≤ ((s.advance e c).get e).getD 0 ∧
      ((s.advance e c).get e).isSome = true ∧
        processBatch s e c false = s := by
  refine ⟨?_, ?_, rfl⟩ <;>
    cases hl : s.get e with
    | none => rw [advance_get_none hl c]; simp [hl]
    | some p =>
      rw [advance_get_some hl c]
      by_cases hc : p ≤ c
      · simp [hl, hc]
      · simp [hl, hc]

/-- Claim C5: referential integrity is enforced: in any instance
satisfying the constraints of DDL.sql, every despesas row and every
discursos row references an existing deputados row, and every votos row
references both an existing votacoes row and an existing deputados row;
an instance in which a dependent row lacks its parent fails the declared
constraints, so such a row cannot be committed. -/
theorem referential_integrity_enforced (db : Inst) (h : dbOK db = true) :
    (∀ r ∈ instRows db "despesas", ∃ v, r.lookup "deputado_id" = some v ∧
        v ≠ Value.vnull ∧
          ∃ pr ∈ instRows db "deputados", pr.lookup "id" = some v) ∧
      (∀ r ∈ instRows db "discursos", ∃ v, r.lookup "deputado_id" = some v ∧
          v ≠ Value.vnull ∧
            ∃ pr ∈ instRows db "deputados", pr.lookup "id" = some v) ∧
        ∀ r ∈ instRows db "votos",
          (∃ v, r.lookup "votacao_id" = some v ∧ v ≠ Value.vnull ∧
            ∃ pr ∈ instRows db "votacoes", pr.lookup "id" = some v) ∧
          (∃ v, r.lookup "deputado_id" = some v ∧ v ≠ Value.vnull ∧
            ∃ pr ∈ instRows db "deputados", pr.lookup "id" = some v) := by
  obtain ⟨h1, h2, h3, h4, h5⟩ := dbOK_parts h
  refine ⟨?_, ?_, fun r hr => ⟨?_, ?_⟩⟩
  · exact @table_fk_col db despesasTable h2
      (colFK "deputado_id" SqlType.integer "deputados" "id") (by decide)
      "deputados" "id" rfl rfl
  · exact @table_fk_col db discursosTable h3
      (colFK "deputado_id" SqlType.integer "deputados" "id") (by decide)
      "deputados" "id" rfl rfl
  · exact @table_fk_col db votosTable h5
      (colFK "votacao_id" SqlType.varchar "votacoes" "id") (by decide)
      "votacoes" "id" rfl rfl r hr
  · exact @table_fk_col db votosTable h5
      (colFK "deputado_id" SqlType.integer "deputados" "id") (by decide)
      "deputados" "id" rfl rfl r hr

/-- Witness for claim C5 at a concrete satisfying instance: the sample
vote row references its existing parent session. -/
theorem referential_integrity_enforced_witness :
    ∃ v, sampleVotoRow.lookup "votacao_id" = some v ∧ v ≠ Value.vnull ∧
      ∃ pr ∈ instRows sampleDb "votacoes", pr.lookup "id" = some v :=
  ((referential_integrity_enforced sampleDb (by decide)).2.2 sampleVotoRow
      (by decide)).1

/-- Claim C4 counterexample: on a raw vote record whose nested deputy
record is absent, the notebook transform raises instead of substituting a
null and recording a warning: the whole batch aborts with a TypeError. -/
theorem votos_transform_fatal_on_missing_deputado :
    votosClean [orphanRawVoto] =
      Except.error "TypeError: NoneType object is not subscriptable" := rfl

/-- Claim C4 amended: the transformer performs no null substitution on
malformed sub-fields: a batch in which every record carries a nested
deputy record with an id is transformed, each output row taking its
deputadoId from that nested record, while a single record with a missing
or id-less deputy record aborts the whole batch with an exception. -/
theorem votos_transform_extracts_id_when_present
    (votos : List RawVoto) (h : ∀ r ∈ votos, subscriptOkB r = true) :
    votosClean votos = Except.ok (votos.map cleanVotoTotal) := by
  induction votos with
  | nil => rfl
  | cons r rest ih =>
    have hr := h r (List.mem_cons_self r rest)
    unfold subscriptOkB at hr
    cases hd : r.deputado_ with
    | none => rw [hd] at hr; cases hr
    | some d =>
      rw [hd] at hr
      simp only [Option.some_bind] at hr
      obtain ⟨v, hid⟩ := Option.isSome_iff_exists.mp hr
      have hsub : subscriptId r.deputado_ = Except.ok v := by
        rw [hd]
        simp only [subscriptId, hid]
      have hrest : votosClean rest = Except.ok (rest.map cleanVotoTotal) :=
        ih fun r' hr' => h r' (List.mem_cons_of_mem r hr')
      simp only [votosClean, hsub, hrest, List.map_cons]
      unfold cleanVotoTotal
      rw [hd]
      simp only [Option.some_bind, hid, Option.getD_some]

/-- Witness for the amended claim C4 at a concrete one-record batch. -/
theorem votos_transform_extracts_id_when_present_witness :
    votosClean [goodRawVoto] = Except.ok ([goodRawVoto].map cleanVotoTotal) :=
  votos_transform_extracts_id_when_present [goodRawVoto] (by decide)

/-- Claim C6: the monetary columns of despesas (valor_documento,
valor_liquido, valor_glosa) are typed NUMERIC, an exact-decimal type; no
column of despesas has a floating-point type; and an exact decimal
written to a NUMERIC cell reads back unchanged. -/
theorem monetary_columns_exact_decimal :
    ((despesasTable.columns.filter fun c =>
        decide (c.name ∈ ["valor_documento", "valor_liquido", "valor_glosa"])).map
          fun c => c.ty) =
      [SqlType.numeric, SqlType.numeric, SqlType.numeric] ∧
    (despesasTable.columns.all fun c =>
        decide (c.ty ≠ SqlType.real) &&
          decide (c.ty ≠ SqlType.doublePrecision)) = true ∧
    ∀ q : Rat, readMonetary (Value.vdec q) = some q :=
  ⟨by decide, by decide, fun q => rfl⟩

/-- Claim C7 counterexample: flattening is not complete: the clean record
the notebook produces for a concrete raw deputy detail record still
carries the nested ultimoStatus object, and the stored rows keep nested
sub-objects as JSONB columns (deputados.ultimo_status_gabinete,
votacoes.proposicao_objeto, votacoes.tipo_votacao). -/
theorem nested_objects_remain :
    detalhesDeputadosClean [sampleRawDetalhe] =
        Except.ok [cleanDetalheRow sampleRawDetalhe] ∧
      (cleanDetalheRow sampleRawDetalhe).ultimoStatus ≠ none ∧
      ((deputadosTable.columns.filter fun c =>
          decide (c.name = "ultimo_status_gabinete")).map fun c => c.ty) =
        [SqlType.jsonb] ∧
      ((votacoesTable.columns.filter fun c =>
          decide (c.name ∈ ["proposicao_objeto", "tipo_votacao"])).map
            fun c => c.ty) =
        [SqlType.jsonb, SqlType.jsonb] :=
  ⟨rfl, by decide, by decide, by decide⟩

/-- Claim C7 amended: for every raw deputy detail record the notebook
extracts the five status sub-fields into top-level columns under their
renames (data becomes dataUltimoStatus, gabinete.telefone becomes
telefone), coercing nothing else; the flattening is partial: the nested
ultimoStatus object is retained in the clean record, and the schema keeps
remaining sub-objects as JSONB columns. -/
theorem detalhes_flattening_selective (rows : List RawDetalheDeputado)
    (out : List CleanDetalheDeputado)
    (h : detalhesDeputadosClean rows = Except.ok out) :
    out = rows.map cleanDetalheRow ∧
      ∀ r ∈ rows, ∀ d, r.ultimoStatus = some d →
        (cleanDetalheRow r).ultimoStatus = some d ∧
        (∀ v, d.lookup "condicaoEleitoral" = some v →
          (cleanDetalheRow r).condicaoEleitoral = v) ∧
        (∀ v, d.lookup "situacao" = some v →
          (cleanDetalheRow r).situacao = v) ∧
        (∀ v, d.lookup "data" = some v →
          (cleanDetalheRow r).dataUltimoStatus = v) ∧
        (∀ v, d.lookup "gabinete.telefone" = some v →
          (cleanDetalheRow r).telefone = v) ∧
        (∀ v, d.lookup "siglaPartido" = some v →
          (cleanDetalheRow r).siglaPartido = v) := by
  constructor
  · unfold detalhesDeputadosClean at h
    split at h
    · injection h with h
      exact h.symm
    · cases h
  · intro r hr d hd
    refine ⟨by simp [cleanDetalheRow, hd], ?_, ?_, ?_, ?_, ?_⟩ <;>
      · intro v hv
        simp [cleanDetalheRow, statusField, hd, hv]

/-- Witness for the amended claim C7 at a concrete one-record frame. -/
theorem detalhes_flattening_selective_witness :
    [cleanDetalheRow sampleRawDetalhe] =
      [sampleRawDetalhe].map cleanDetalheRow :=
  (detalhes_flattening_selective [sampleRawDetalhe]
      [cleanDetalheRow sampleRawDetalhe] rfl).1

/-- Claim C8: a voting session is identified in the store by its
externally assigned string id: the only primary-key column of votacoes is
id of type VARCHAR, no column of votacoes is a locally generated serial,
and in any instance satisfying DDL.sql two votacoes rows with the same id
are the same row. -/
theorem votacoes_external_string_pk (db : Inst) (h : dbOK db = true) :
    ((votacoesTable.columns.filter fun c => c.primaryKey).map
        fun c => (c.name, c.ty)) = [("id", SqlType.varchar)] ∧
      (votacoesTable.columns.all fun c =>
        decide (c.ty ≠ SqlType.serial)) = true ∧
      ∀ r1 ∈ instRows db "votacoes", ∀ r2 ∈ instRows db "votacoes",
        r1.lookup "id" = r2.lookup "id" → r1 = r2 := by
  refine ⟨by decide, by decide, ?_⟩
  intro r1 h1 r2 h2 hid
  have hPW := (tableOK_parts (dbOK_parts h).2.2.2.1).2.2
  refine pairwiseB_pk_sound hPW r1 h1 r2 h2 ?_
  show [r1.lookup "id"] = [r2.lookup "id"]
  rw [hid]

/-- Witness for claim C8 at a concrete satisfying instance. -/
theorem votacoes_external_string_pk_witness :
    ((votacoesTable.columns.filter fun c => c.primaryKey).map
        fun c => (c.name, c.ty)) = [("id", SqlType.varchar)] :=
  (votacoes_external_string_pk sampleDb (by decide)).1

/-- Claim C9: in any instance satisfying DDL.sql, every votacoes row has
a present, non-null aprovacao and a present, non-null tipo_votacao (the
columns being declared BOOLEAN NOT NULL and JSONB NOT NULL); a session
row lacking aprovacao fails the NOT NULL check and so cannot be
inserted. -/
theorem votacoes_outcome_total (db : Inst) (h : dbOK db = true) :
    (∀ r ∈ instRows db "votacoes",
        (∃ v, r.lookup "aprovacao" = some v ∧ v ≠ Value.vnull) ∧
          ∃ v, r.lookup "tipo_votacao" = some v ∧ v ≠ Value.vnull) ∧
      notNullOK votacoesTable noAprovacaoRow = false ∧
      ((votacoesTable.columns.filter fun c =>
          decide (c.name ∈ ["tipo_votacao", "aprovacao"])).map
            fun c => (c.ty, c.notNull)) =
        [(SqlType.jsonb, true), (SqlType.boolean, true)] := by
  refine ⟨?_, by decide, by decide⟩
  intro r hr
  have hNN := (tableOK_parts (dbOK_parts h).2.2.2.1).1
  have h1 := List.all_eq_true.mp hNN r hr
  constructor
  · exact @notnull_sound votacoesTable (colN "aprovacao" SqlType.boolean)
      (by decide) rfl r h1
  · exact @notnull_sound votacoesTable (colN "tipo_votacao" SqlType.jsonb)
      (by decide) rfl r h1

/-- Witness for claim C9 at a concrete satisfying instance. -/
theorem votacoes_outcome_total_witness :
    (∃ v, sampleVotacaoRow.lookup "aprovacao" = some v ∧
        v ≠ Value.vnull) ∧
      ∃ v, sampleVotacaoRow.lookup "tipo_votacao" = some v ∧
        v ≠ Value.vnull :=
  (votacoes_outcome_total sampleDb (by decide)).1 sampleVotacaoRow
    (by decide)

/-- Claim C10 counterexample: with DATABASE_URL set to the empty string
the variable is set, yet the entrypoint overwrites it with the default:
the shell -z test is true for an empty expansion. -/
theorem entrypoint_overwrites_empty_database_url :
    (dockerEntrypoint (some "") ["init-db"]).databaseUrl =
        some defaultDatabaseUrl ∧
      (some "" : Option String) ≠ some defaultDatabaseUrl :=
  ⟨rfl, by decide⟩

/-- Claim C10 amended: if DATABASE_URL is unset or set to the empty
string when the container entrypoint runs, the entrypoint sets it to the
fixed default postgresql://postgres:postgres@db:5432/camara_analytics
before any database-initialization, ETL, or scheduler command executes;
if DATABASE_URL is set to a non-empty value, its value is left
unchanged. -/
theorem entrypoint_database_url_default (args : List String) (s : String)
    (hs : s ≠ "") :
    (dockerEntrypoint none args).databaseUrl = some defaultDatabaseUrl ∧
      (dockerEntrypoint (some "") args).databaseUrl =
        some defaultDatabaseUrl ∧
      (dockerEntrypoint (some s) args).databaseUrl = some s := by
  refine ⟨rfl, rfl, ?_⟩
  show entrypointEnvAfterDefault (some s) = some s
  unfold entrypointEnvAfterDefault
  rw [Option.getD_some, if_neg hs]

/-- Witness for the amended claim C10 at a concrete invocation. -/
theorem entrypoint_database_url_default_witness :
    (dockerEntrypoint none ["etl", "--mode", "incremental"]).databaseUrl =
        some defaultDatabaseUrl ∧
      (dockerEntrypoint (some "")
          ["etl", "--mode", "incremental"]).databaseUrl =
        some defaultDatabaseUrl ∧
      (dockerEntrypoint (some "postgresql://u:p@host:5432/db")
          ["etl", "--mode", "incremental"]).databaseUrl =
        some "postgresql://u:p@host:5432/db" :=
  entrypoint_database_url_default ["etl", "--mode", "incremental"]
    "postgresql://u:p@host:5432/db" (by decide)

end Camara
